import Mathlib

/-!
Verification of the EcoSim-AI frontend rendering core
(src/frontend/src/components/Island.tsx and EcosystemViewport.tsx).

Shallow embedding conventions:
* JavaScript numbers are modelled as exact rationals (ℚ); the GLSL water
  shader, whose claims involve the real sine function, is modelled over ℝ.
* `Math.sqrt` and the simplex-noise sampler `noise2D` are an external
  library call and an injected dependency respectively; both are modelled
  as function parameters, exactly as `noise2D` is a parameter of
  `getIslandElevation` in the source.
* `Math.random()` draws are modelled as a stream `rnd : ℕ → ℚ` of values
  in `[0, 1)`, consumed in call order within a tile; the per-tile streams
  of the whole scene are a family indexed by the tile coordinate.
* A JavaScript `Map.get(k) || 0` lookup is `(m k).getD 0` on an
  `Option ℚ`-valued map, and an object-key lookup that can miss
  (`BIOME_COLORS[tile.biome]`) returns an `Option`, `none` standing for
  `undefined`.
-/

/-- A species snapshot entry as consumed by `Terrain` (fields `diet` and
`population` of `Species` in src/frontend/src/types.ts). -/
structure Species where
  diet : String
  population : ℚ
deriving Repr, DecidableEq

/-- The summed population of the species whose diet is `producer`:
`species.filter(s => s.diet === 'producer').reduce((sum, s) => sum + s.population, 0)`
from `Terrain/ecosystemState` in Island.tsx. -/
def totalProducerPopulation (species : List Species) : ℚ :=
  ((species.filter (fun s => s.diet = "producer")).map (fun s => s.population)).sum

/-- The `vegetationHealth` value computed by `Terrain/ecosystemState`
(Island.tsx): the early return `if (!species || species.length === 0)`
yields `1.0`, otherwise `Math.min(1.0, totalPlants / 10000)`. -/
def vegetationHealth (species : List Species) : ℚ :=
  if species = [] then 1
  else min 1 (totalProducerPopulation species / 10000)

/-- An RGB colour with channels in the style of `THREE.Color`
(each channel a number, nominally in `[0,1]`). -/
structure Color3 where
  r : ℚ
  g : ℚ
  b : ℚ
deriving Repr, DecidableEq

/-- `THREE.Color.lerp(c, alpha)`: each channel moves from `this` toward `c`
by the factor `alpha` (`this.r += (c.r - this.r) * alpha`, unclamped). -/
def lerpColor (a c : Color3) (alpha : ℚ) : Color3 :=
  ⟨a.r + (c.r - a.r) * alpha, a.g + (c.g - a.g) * alpha, a.b + (c.b - a.b) * alpha⟩

/-- `new THREE.Color('#1E90FF')` (healthy water colour, Water/colors). -/
def healthyColor : Color3 := ⟨30/255, 144/255, 255/255⟩

/-- `new THREE.Color('#0066CC')` (healthy deep colour). -/
def healthyDeep : Color3 := ⟨0/255, 102/255, 204/255⟩

/-- `new THREE.Color('#87CEEB')` (healthy foam colour). -/
def healthyFoam : Color3 := ⟨135/255, 206/255, 235/255⟩

/-- `new THREE.Color('#4A5D4A')` (unhealthy/murky water colour). -/
def unhealthyColor : Color3 := ⟨74/255, 93/255, 74/255⟩

/-- `new THREE.Color('#2F3D2F')` (unhealthy deep colour). -/
def unhealthyDeep : Color3 := ⟨47/255, 61/255, 47/255⟩

/-- `new THREE.Color('#6B7B6B')` (unhealthy foam colour). -/
def unhealthyFoam : Color3 := ⟨107/255, 123/255, 107/255⟩

/-- The record returned by the `colors` memo of `Water`
(health-aware variant, EcosystemViewport.tsx). -/
structure WaterColors where
  color : Color3
  deepColor : Color3
  foamColor : Color3
  opacity : ℚ
deriving Repr, DecidableEq

/-- The `colors` memo of the health-aware `Water` component:
each palette entry is `healthy.clone().lerp(unhealthy, 1 - ecosystemHealth)`
and `opacity = 0.9 + ecosystemHealth * 0.05`. -/
def waterColors (ecosystemHealth : ℚ) : WaterColors :=
  { color := lerpColor healthyColor unhealthyColor (1 - ecosystemHealth)
    deepColor := lerpColor healthyDeep unhealthyDeep (1 - ecosystemHealth)
    foamColor := lerpColor healthyFoam unhealthyFoam (1 - ecosystemHealth)
    opacity := 9/10 + ecosystemHealth * 5/100 }

/-- A simulation tile as consumed by `Island` (fields `x`, `y`, `biome` of
`Tile` in src/frontend/src/types.ts; the biome is a string label). -/
structure Tile where
  x : ℤ
  y : ℤ
  biome : String
deriving Repr, DecidableEq

/-- Modelled from the spec: `BIOME_COLORS` lives in src/frontend/src/types.ts,
which is not part of the repository snapshot. The spec describes BiomeKind as
"a closed enumeration with an associated display color"
(water, beach, grassland, forest, mountain); the colour values themselves are
unspecified and are represented here by symbolic strings. The table is a plain
record: looking up a key outside the enumeration yields `undefined` (`none`). -/
def BIOME_COLORS : List (String × String) :=
  [("water", "colorWater"), ("beach", "colorBeach"), ("grassland", "colorGrassland"),
   ("forest", "colorForest"), ("mountain", "colorMountain")]

/-- `BIOME_COLORS[tile.biome]` — the record lookup at Island.tsx line 44;
`none` models the `undefined` a JavaScript record returns on a missing key. -/
def biomeColor (biome : String) : Option String :=
  (BIOME_COLORS.find? (fun p => p.1 = biome)).map (fun p => p.2)

/-- `getIslandElevation` (Island.tsx lines 15–33). `Math.sqrt` is modelled as
the function parameter `sqrtFn` and the simplex-noise sampler as `noise2D`,
mirroring the `noise2D` parameter of the source function. -/
def getIslandElevation (x y : ℚ) (gridSize : ℚ) (sqrtFn : ℚ → ℚ)
    (noise2D : ℚ → ℚ → ℚ) : ℚ :=
  let nx := (x / gridSize) * 2 - 1
  let ny := (y / gridSize) * 2 - 1
  let distFromCenter := sqrtFn (nx * nx + ny * ny)
  let islandMask := max 0 (1 - distFromCenter * 1.2)
  let noiseValue := (noise2D (x * 0.3) (y * 0.3) + 1) / 2
  islandMask * islandMask * (0.5 + noiseValue * 0.5)

/-- The island-mask component `Math.max(0, 1 - distFromCenter * 1.2)` of
`getIslandElevation` (Island.tsx line 24), as a function of the radial
distance from the island center. -/
def islandMask (distFromCenter : ℚ) : ℚ :=
  max 0 (1 - distFromCenter * 1.2)

/-- One extruded-hexagon mesh instance as emitted for a visible tile by
`TileHex` (Island.tsx lines 43–68): `position = [tile.x - offset, height / 2,
tile.y - offset]` with `height = 0.1 + elevation * 1.5`, colour
`BIOME_COLORS[tile.biome]`. -/
structure MeshInstance where
  px : ℚ
  py : ℚ
  pz : ℚ
  height : ℚ
  color : Option String
deriving Repr, DecidableEq

/-- The per-tile render step of `Island` (Island.tsx lines 204–219 plus
`TileHex`): the tile is culled when `elevation < 0.08`, otherwise one
hexagonal-prism instance is emitted. -/
def tileHexMesh (tile : Tile) (elevation : ℚ) (gridSize : ℚ) : Option MeshInstance :=
  if elevation < 0.08 then none
  else
    let offset := gridSize / 2 - 0.5
    let height := 0.1 + elevation * 1.5
    some { px := (tile.x : ℚ) - offset, py := height / 2, pz := (tile.y : ℚ) - offset,
           height := height, color := biomeColor tile.biome }

/-- The decoration-eligibility guard `if (elevation < 0.15) return;`
(Island.tsx line 158). -/
def decorationEligible (elevation : ℚ) : Bool :=
  !(elevation < 0.15)

/-- Decoration kinds of the `props` memo (`'tree' | 'rock' | 'mountain'`). -/
inductive PropKind where
  | tree
  | rock
  | mountain
deriving Repr, DecidableEq

/-- One decoration instance of the `props` memo (Island.tsx line 153). -/
structure PropItem where
  kind : PropKind
  px : ℚ
  py : ℚ
  pz : ℚ
  scale : ℚ
deriving Repr, DecidableEq

/-- The per-tile body of the `props` memo (Island.tsx lines 156–196).
`rnd` is the stream of `Math.random()` values this tile consumes, indexed in
call order: for a forest tile, draw 0 picks the tree count and each tree `i`
uses draws `1+3*i`, `2+3*i`, `3+3*i` (x-jitter, z-jitter, scale); a mountain
tile uses draw 0 for its scale; a grassland tile uses draw 0 for the
`Math.random() > 0.7` coin and draws 1–3 for jitter and scale. -/
def decorateTile (tile : Tile) (elevation : ℚ) (offset : ℚ) (rnd : ℕ → ℚ) :
    List PropItem :=
  if elevation < 0.15 then []
  else
    let baseHeight := 0.1 + elevation * 1.5
    let baseX := (tile.x : ℚ) - offset
    let baseZ := (tile.y : ℚ) - offset
    if tile.biome = "forest" then
      let treeCount := 1 + (Int.floor (rnd 0 * 2)).toNat
      (List.range treeCount).map (fun i =>
        { kind := PropKind.tree,
          px := baseX + (rnd (1 + 3 * i) - 0.5) * 0.4,
          py := baseHeight,
          pz := baseZ + (rnd (2 + 3 * i) - 0.5) * 0.4,
          scale := 0.7 + rnd (3 + 3 * i) * 0.4 })
    else if tile.biome = "mountain" then
      [{ kind := PropKind.mountain, px := baseX, py := baseHeight, pz := baseZ,
         scale := 0.8 + rnd 0 * 0.4 }]
    else if tile.biome = "grassland" then
      if rnd 0 > 0.7 then
        [{ kind := PropKind.rock,
           px := baseX + (rnd 1 - 0.5) * 0.3,
           py := baseHeight,
           pz := baseZ + (rnd 2 - 0.5) * 0.3,
           scale := 0.5 + rnd 3 * 0.5 }]
      else []
    else []

/-- The tile-mesh pass of `Island` (Island.tsx lines 204–219): each tile's
elevation is read from the memoized elevation map with
`tileElevations.get(key) || 0`, then `TileHex` is emitted unless culled. -/
def islandMeshes (tiles : List Tile) (gridSize : ℚ) (elev : ℤ → ℤ → Option ℚ) :
    List MeshInstance :=
  tiles.filterMap (fun t => tileHexMesh t ((elev t.x t.y).getD 0) gridSize)

/-- The `props` memo of `Island` (Island.tsx lines 152–199) over a whole tile
list; `rndFam` supplies each tile's stream of `Math.random()` draws. -/
def islandProps (tiles : List Tile) (gridSize : ℚ) (elev : ℤ → ℤ → Option ℚ)
    (rndFam : ℤ → ℤ → ℕ → ℚ) : List PropItem :=
  tiles.flatMap (fun t =>
    decorateTile t ((elev t.x t.y).getD 0) (gridSize / 2 - 0.5) (rndFam t.x t.y))

/-- The summed vertex displacement of the health-aware `Water` vertex shader
(EcosystemViewport.tsx lines 125–144):
`wave1 + wave2 + wave3` with `wave1 = sin(pos.x * 2.0 + uTime * 0.5) * 0.05`,
`wave2 = sin(pos.y * 3.0 + uTime * 0.7) * 0.03`,
`wave3 = sin((pos.x + pos.y) * 1.5 + uTime * 0.3) * 0.04`. -/
noncomputable def healthWaterDisplacement (x y uTime : ℝ) : ℝ :=
  Real.sin (x * 2.0 + uTime * 0.5) * 0.05 +
  Real.sin (y * 3.0 + uTime * 0.7) * 0.03 +
  Real.sin ((x + y) * 1.5 + uTime * 0.3) * 0.04

/-- The summed vertex displacement of the dark-variant `Water` vertex shader
(EcosystemViewport.tsx lines 254–273); the GLSL text is identical to the
health-aware variant. -/
noncomputable def darkWaterDisplacement (x y uTime : ℝ) : ℝ :=
  Real.sin (x * 2.0 + uTime * 0.5) * 0.05 +
  Real.sin (y * 3.0 + uTime * 0.7) * 0.03 +
  Real.sin ((x + y) * 1.5 + uTime * 0.3) * 0.04

/-- Membership of all three channels of a colour in the unit interval. -/
def colorInUnit (c : Color3) : Prop :=
  0 ≤ c.r ∧ c.r ≤ 1 ∧ 0 ≤ c.g ∧ c.g ≤ 1 ∧ 0 ≤ c.b ∧ c.b ≤ 1

lemma lerp_channel_mem {a b alpha : ℚ} (ha0 : 0 ≤ a) (ha1 : a ≤ 1)
    (hb0 : 0 ≤ b) (hb1 : b ≤ 1) (h0 : 0 ≤ alpha) (h1 : alpha ≤ 1) :
    0 ≤ a + (b - a) * alpha ∧ a + (b - a) * alpha ≤ 1 :=
  ⟨by nlinarith, by nlinarith⟩

lemma lerpColor_mem {a b : Color3} {alpha : ℚ} (ha : colorInUnit a)
    (hb : colorInUnit b) (h0 : 0 ≤ alpha) (h1 : alpha ≤ 1) :
    colorInUnit (lerpColor a b alpha) := by
  obtain ⟨har0, har1, hag0, hag1, hab0, hab1⟩ := ha
  obtain ⟨hbr0, hbr1, hbg0, hbg1, hbb0, hbb1⟩ := hb
  obtain ⟨hr0, hr1⟩ := lerp_channel_mem har0 har1 hbr0 hbr1 h0 h1
  obtain ⟨hg0, hg1⟩ := lerp_channel_mem hag0 hag1 hbg0 hbg1 h0 h1
  obtain ⟨hb0, hb1⟩ := lerp_channel_mem hab0 hab1 hbb0 hbb1 h0 h1
  exact ⟨hr0, hr1, hg0, hg1, hb0, hb1⟩

/-- C1 counterexample: the claim's formula fails on the empty species list —
`Terrain/ecosystemState` returns `vegetationHealth = 1.0` for an empty list
(which has no producers), while `min(1, totalProducerPopulation / 10000)`
would be `0` there. -/
theorem C1_empty_species_counterexample :
    vegetationHealth [] = 1 ∧
    min 1 (totalProducerPopulation [] / 10000) = (0 : ℚ) ∧
    vegetationHealth [] ≠ min 1 (totalProducerPopulation [] / 10000) := by
  refine ⟨rfl, ?_, ?_⟩ <;>
    simp [vegetationHealth, totalProducerPopulation]

/-- C1 (amended): for every NON-EMPTY species list the `vegetationHealth`
value fed to the terrain shader equals
`min(1, totalProducerPopulation / 10000)`; in particular a non-empty list
with no producers yields `0`, while the empty list short-circuits to `1.0`. -/
theorem C1_vegetationHealth_formula :
    (∀ species : List Species, species ≠ [] →
      vegetationHealth species = min 1 (totalProducerPopulation species / 10000)) ∧
    (∀ species : List Species, species ≠ [] →
      (∀ s ∈ species, s.diet ≠ "producer") → vegetationHealth species = 0) ∧
    vegetationHealth [] = 1 := by
  refine ⟨?_, ?_, rfl⟩
  · intro species hne
    simp [vegetationHealth, hne]
  · intro species hne hnoprod
    have hfilter : species.filter (fun s => s.diet = "producer") = [] := by
      rw [List.filter_eq_nil_iff]
      intro s hs
      simpa using hnoprod s hs
    simp [vegetationHealth, hne, totalProducerPopulation, hfilter]

/-- C1 witness: a concrete one-element list with no producers. -/
theorem C1_witness :
    vegetationHealth [⟨"herbivore", 5⟩] = 0 :=
  C1_vegetationHealth_formula.2.1 [⟨"herbivore", 5⟩] (by simp)
    (by intro s hs; simp at hs; simp [hs])

/-- C2 counterexample: `ecosystemHealth` is NOT clamped to `[0,1]` before the
colour blend in `Water/colors` — at `ecosystemHealth = 2` the lerp factor is
`1 - 2 = -1` and the blended shallow-water red channel comes out negative
(`-14/255`), a value outside `[0,1]` handed to the shader uniform; a clamped
input (`min 1 (max 0 2) = 1`) would give a different, in-range result. -/
theorem C2_no_clamp_counterexample :
    (waterColors 2).color.r = -(14/255) ∧
    (waterColors 2).color.r < 0 ∧
    waterColors 2 ≠ waterColors (min 1 (max 0 2)) := by
  refine ⟨?_, ?_, ?_⟩ <;>
    norm_num [waterColors, lerpColor, healthyColor, unhealthyColor, healthyDeep,
      unhealthyDeep, healthyFoam, unhealthyFoam, WaterColors.mk.injEq, Color3.mk.injEq]

/-- C2 (amended): the code performs no clamping — `ecosystemHealth` feeds the
blend factor `1 - ecosystemHealth` directly and `vegetationHealth` is clamped
only from above by `min(1, ·)`. Inputs that are already in range are safe: for
`ecosystemHealth ∈ [0,1]` every blended water colour channel and the opacity
lie in `[0,1]`, and for nonnegative populations `vegetationHealth ∈ [0,1]`;
out-of-range inputs extrapolate (see the counterexample). -/
theorem C2_in_range_inputs_safe :
    (∀ h : ℚ, 0 ≤ h → h ≤ 1 →
      colorInUnit (waterColors h).color ∧ colorInUnit (waterColors h).deepColor ∧
      colorInUnit (waterColors h).foamColor ∧
      0 ≤ (waterColors h).opacity ∧ (waterColors h).opacity ≤ 1) ∧
    (∀ species : List Species, (∀ s ∈ species, 0 ≤ s.population) →
      0 ≤ vegetationHealth species ∧ vegetationHealth species ≤ 1) := by
  constructor
  · intro h h0 h1
    have halpha0 : (0 : ℚ) ≤ 1 - h := by linarith
    have halpha1 : 1 - h ≤ 1 := by linarith
    refine ⟨?_, ?_, ?_, ?_, ?_⟩
    · exact lerpColor_mem (by norm_num [colorInUnit, healthyColor])
        (by norm_num [colorInUnit, unhealthyColor]) halpha0 halpha1
    · exact lerpColor_mem (by norm_num [colorInUnit, healthyDeep])
        (by norm_num [colorInUnit, unhealthyDeep]) halpha0 halpha1
    · exact lerpColor_mem (by norm_num [colorInUnit, healthyFoam])
        (by norm_num [colorInUnit, unhealthyFoam]) halpha0 halpha1
    · simp only [waterColors]
      linarith
    · simp only [waterColors]
      linarith
  · intro species hpop
    by_cases hne : species = []
    · subst hne
      norm_num [vegetationHealth]
    · have htot : 0 ≤ totalProducerPopulation species := by
        apply List.sum_nonneg
        intro q hq
        simp only [totalProducerPopulation, List.mem_map] at hq
        obtain ⟨s, hs, rfl⟩ := hq
        exact hpop s (List.mem_of_mem_filter hs)
      constructor
      · simp only [vegetationHealth, if_neg hne]
        have : (0 : ℚ) ≤ totalProducerPopulation species / 10000 := by positivity
        exact le_min (by norm_num) this
      · simp only [vegetationHealth, if_neg hne]
        exact min_le_left _ _

/-- C2 witness: the amended theorem at `ecosystemHealth = 1/2` and a concrete
nonnegative species list. -/
theorem C2_witness :
    colorInUnit (waterColors (1/2)).color ∧
    (0 ≤ vegetationHealth [⟨"producer", 5000⟩] ∧
      vegetationHealth [⟨"producer", 5000⟩] ≤ 1) :=
  ⟨(C2_in_range_inputs_safe.1 (1/2) (by norm_num) (by norm_num)).1,
   C2_in_range_inputs_safe.2 [⟨"producer", 5000⟩]
     (by intro s hs; simp at hs; simp [hs])⟩

/-- C3 counterexample: a biome outside the known enumeration does NOT resolve
to an explicit designated fallback colour — the record lookup
`BIOME_COLORS[tile.biome]` yields `undefined` (`none`), so the material simply
receives no colour. -/
theorem C3_no_fallback_counterexample :
    biomeColor "lava" = none ∧ (biomeColor "lava").isSome = false := by
  constructor <;> rfl

/-- C3 (amended): colour resolution is total, so rendering never crashes or
aborts, but there is no explicit designated fallback colour: a biome inside
the enumeration resolves to its colour (`some`), and a biome outside resolves
to `none` (`undefined`), leaving the material to its own default. -/
theorem C3_biome_color_total :
    (∀ biome : String, biome ∉ BIOME_COLORS.map Prod.fst → biomeColor biome = none) ∧
    (∀ biome : String, biome ∈ BIOME_COLORS.map Prod.fst →
      (biomeColor biome).isSome = true) := by
  constructor
  · intro biome hmem
    have hnone : BIOME_COLORS.find? (fun p => p.1 = biome) = none := by
      rw [List.find?_eq_none]
      intro p hp hdec
      apply hmem
      rw [List.mem_map]
      refine ⟨p, hp, ?_⟩
      simpa using hdec
    simp [biomeColor, hnone]
  · intro biome hmem
    rw [List.mem_map] at hmem
    obtain ⟨p, hp, rfl⟩ := hmem
    have hsome : (BIOME_COLORS.find? (fun q => q.1 = p.1)).isSome = true := by
      rw [List.find?_isSome]
      exact ⟨p, hp, by simp⟩
    obtain ⟨q, hq⟩ := Option.isSome_iff_exists.mp hsome
    simp [biomeColor, hq]

/-- C3 witness: the amended theorem at a concrete unknown biome (`"lava"`)
and at a concrete known biome (`"forest"`). -/
theorem C3_witness :
    biomeColor "lava" = none ∧ (biomeColor "forest").isSome = true :=
  ⟨C3_biome_color_total.1 "lava" (by decide),
   C3_biome_color_total.2 "forest" (by decide)⟩

/-- C4: a hexagon mesh instance is emitted iff the tile's elevation is
`≥ 0.08`; the tile is decoration-eligible iff its elevation is `≥ 0.15`
(an ineligible tile contributes no decorations); hence every
decoration-eligible tile is visible — and not the reverse, witnessed by the
beach band `elevation = 0.1`, which is visible but ineligible. -/
theorem C4_visibility_eligibility_thresholds :
    ∀ (tile : Tile) (elevation gridSize : ℚ),
      ((tileHexMesh tile elevation gridSize).isSome = true ↔ 0.08 ≤ elevation) ∧
      (decorationEligible elevation = true ↔ 0.15 ≤ elevation) ∧
      (decorationEligible elevation = true →
        (tileHexMesh tile elevation gridSize).isSome = true) ∧
      (decorationEligible elevation = false →
        ∀ (offset : ℚ) (rnd : ℕ → ℚ), decorateTile tile elevation offset rnd = []) ∧
      ((tileHexMesh tile (1/10) gridSize).isSome = true ∧
        decorationEligible (1/10) = false) := by
  intro tile elevation gridSize
  have hvis : ∀ e : ℚ, (tileHexMesh tile e gridSize).isSome = true ↔ 0.08 ≤ e := by
    intro e
    by_cases h : e < 0.08
    · simp [tileHexMesh, h, not_le.mpr h]
    · simp [tileHexMesh, h, not_lt.mp h]
  have helig : ∀ e : ℚ, decorationEligible e = true ↔ 0.15 ≤ e := by
    intro e
    by_cases h : e < 0.15
    · simp [decorationEligible, h, not_le.mpr h]
    · simp [decorationEligible, h, not_lt.mp h]
  refine ⟨hvis elevation, helig elevation, ?_, ?_, ?_, ?_⟩
  · intro he
    rw [hvis]
    have : 0.15 ≤ elevation := (helig elevation).mp he
    linarith
  · intro he offset rnd
    have : elevation < 0.15 := by
      by_contra hge
      rw [(helig elevation).symm.mp (not_lt.mp hge)] at he
      exact Bool.true_eq_false.mp he
    simp [decorateTile, this]
  · rw [hvis]
    norm_num
  · rw [Bool.eq_false_iff]
    intro habs
    have : (0.15 : ℚ) ≤ 1/10 := (helig (1/10)).mp habs
    norm_num at this

/-- C4 witness: the implication conjuncts at a concrete eligible elevation
(`0.2`) and a concrete ineligible one (`0.05`). -/
theorem C4_witness :
    (tileHexMesh ⟨0, 0, "water"⟩ (2/10) 8).isSome = true ∧
    decorateTile ⟨0, 0, "water"⟩ (5/100) 0 (fun _ => 0) = [] :=
  ⟨(C4_visibility_eligibility_thresholds ⟨0, 0, "water"⟩ (2/10) 8).2.2.1
      (by norm_num [decorationEligible]),
   (C4_visibility_eligibility_thresholds ⟨0, 0, "water"⟩ (5/100) 8).2.2.2.1
      (by norm_num [decorationEligible]) 0 (fun _ => 0)⟩

/-- C5: for integer grid coordinates, positive grid size and a noise sample
in `[-1,1]`, `getIslandElevation` returns exactly `m² * (0.5 + 0.5*noise)`
where `nx = 2*(x/gridSize) - 1`, `ny = 2*(y/gridSize) - 1`,
`d = sqrt(nx² + ny²)`, `m = max(0, 1 - d*1.2)` and `noise = (n+1)/2` remaps
the raw sample `n` from `[-1,1]` to `[0,1]`. -/
theorem C5_elevation_formula :
    ∀ (x y : ℤ) (gridSize : ℚ) (sqrtFn : ℚ → ℚ) (noise2D : ℚ → ℚ → ℚ),
      0 < gridSize →
      -1 ≤ noise2D ((x : ℚ) * 0.3) ((y : ℚ) * 0.3) →
      noise2D ((x : ℚ) * 0.3) ((y : ℚ) * 0.3) ≤ 1 →
      getIslandElevation x y gridSize sqrtFn noise2D =
        (max 0 (1 - sqrtFn ((((x : ℚ) / gridSize) * 2 - 1) * (((x : ℚ) / gridSize) * 2 - 1) +
            (((y : ℚ) / gridSize) * 2 - 1) * (((y : ℚ) / gridSize) * 2 - 1)) * 1.2)) ^ 2 *
          (0.5 + 0.5 * ((noise2D ((x : ℚ) * 0.3) ((y : ℚ) * 0.3) + 1) / 2)) := by
  intro x y gridSize sqrtFn noise2D _ _ _
  simp only [getIslandElevation]
  ring

/-- C5 witness: the formula at `(0,0)`, grid size 8, the identity in place of
`sqrt` and the constant-zero noise field. -/
theorem C5_witness :
    getIslandElevation ((0 : ℤ) : ℚ) ((0 : ℤ) : ℚ) 8 (fun z => z) (fun _ _ => 0) = 0 := by
  have h := C5_elevation_formula 0 0 8 (fun z => z) (fun _ _ => 0)
    (by norm_num) (by norm_num) (by norm_num)
  rw [h]
  norm_num [max_def]

/-- C6 counterexample: the island-mask component is NOT strictly decreasing
in the radial distance everywhere — at distances `1 < 2` the mask has already
saturated at `0`, so it does not strictly decrease. -/
theorem C6_strictness_counterexample :
    (1 : ℚ) < 2 ∧ islandMask 1 = 0 ∧ islandMask 2 = 0 ∧
    ¬ islandMask 2 < islandMask 1 := by
  refine ⟨by norm_num, ?_, ?_, ?_⟩ <;>
    norm_num [islandMask]

/-- C6 (amended): the island-mask component is weakly decreasing in the
radial distance, and strictly decreasing as long as the mask at the nearer
point is still positive (it saturates at `0` from `d = 5/6` on); consequently,
holding the noise value fixed, the elevation at the exact center
(`nx = ny = 0`, reached at `x = y = gridSize/2`) is `≥` the elevation at the
far corner `(0,0)`, for any nonnegative `sqrt` with `sqrt 0 = 0`. -/
theorem C6_mask_antitone :
    (∀ d1 d2 : ℚ, d1 ≤ d2 → islandMask d2 ≤ islandMask d1) ∧
    (∀ d1 d2 : ℚ, d1 < d2 → 0 < islandMask d1 → islandMask d2 < islandMask d1) ∧
    (∀ (gridSize : ℚ) (sqrtFn : ℚ → ℚ) (c : ℚ),
      0 < gridSize → (∀ z, 0 ≤ sqrtFn z) → sqrtFn 0 = 0 → -1 ≤ c →
      getIslandElevation 0 0 gridSize sqrtFn (fun _ _ => c) ≤
        getIslandElevation (gridSize / 2) (gridSize / 2) gridSize sqrtFn
          (fun _ _ => c)) := by
  refine ⟨?_, ?_, ?_⟩
  · intro d1 d2 h
    exact max_le_max le_rfl (by nlinarith)
  · intro d1 d2 h hpos
    have h1pos : 0 < 1 - d1 * 1.2 := by
      by_contra hle
      push_neg at hle
      rw [islandMask, max_eq_left hle] at hpos
      exact lt_irrefl 0 hpos
    have hmask1 : islandMask d1 = 1 - d1 * 1.2 := by
      rw [islandMask, max_eq_right (le_of_lt h1pos)]
    rw [islandMask, hmask1, max_lt_iff]
    exact ⟨h1pos, by nlinarith⟩
  · intro gridSize sqrtFn c hg hs0 hsz hc
    have hgne : gridSize ≠ 0 := ne_of_gt hg
    have hcenter : gridSize / 2 / gridSize * 2 - 1 = 0 := by
      field_simp
      ring
    simp only [getIslandElevation]
    have hd : 0 ≤ sqrtFn ((0 / gridSize * 2 - 1) * (0 / gridSize * 2 - 1) +
        (0 / gridSize * 2 - 1) * (0 / gridSize * 2 - 1)) := hs0 _
    set d := sqrtFn ((0 / gridSize * 2 - 1) * (0 / gridSize * 2 - 1) +
        (0 / gridSize * 2 - 1) * (0 / gridSize * 2 - 1)) with hdef
    have hcc : (gridSize / 2 / gridSize * 2 - 1) * (gridSize / 2 / gridSize * 2 - 1) +
        (gridSize / 2 / gridSize * 2 - 1) * (gridSize / 2 / gridSize * 2 - 1) = 0 := by
      rw [hcenter]
      norm_num
    have hm2 : max 0 (1 - sqrtFn ((gridSize / 2 / gridSize * 2 - 1) *
        (gridSize / 2 / gridSize * 2 - 1) + (gridSize / 2 / gridSize * 2 - 1) *
        (gridSize / 2 / gridSize * 2 - 1)) * 1.2) = 1 := by
      rw [hcc, hsz]
      norm_num
    rw [hm2]
    have hm0 : (0 : ℚ) ≤ max 0 (1 - d * 1.2) := le_max_left _ _
    have hm1 : max 0 (1 - d * 1.2) ≤ 1 := max_le (by norm_num) (by nlinarith)
    have hf : (0 : ℚ) ≤ 0.5 + (c + 1) / 2 * 0.5 := by nlinarith
    have hmm : (0 ⊔ (1 - d * 1.2)) * (0 ⊔ (1 - d * 1.2)) ≤ 1 := by nlinarith
    calc (0 ⊔ (1 - d * 1.2)) * (0 ⊔ (1 - d * 1.2)) * (0.5 + (c + 1) / 2 * 0.5)
        ≤ 1 * (0.5 + (c + 1) / 2 * 0.5) := mul_le_mul_of_nonneg_right hmm hf
      _ = 1 * 1 * (0.5 + (c + 1) / 2 * 0.5) := by ring

/-- C6 witness: strict decrease at `d = 0 < 1/2` (where the mask is positive)
and the center-vs-corner comparison at grid size 8 with a concrete
nonnegative square root and constant noise. -/
theorem C6_witness :
    islandMask (1/2) < islandMask 0 ∧
    getIslandElevation 0 0 8 (fun _ => 0) (fun _ _ => 0) ≤
      getIslandElevation ((8 : ℚ) / 2) ((8 : ℚ) / 2) 8 (fun _ => 0) (fun _ _ => 0) :=
  ⟨C6_mask_antitone.2.1 0 (1/2) (by norm_num) (by norm_num [islandMask]),
   C6_mask_antitone.2.2 8 (fun _ => 0) 0 (by norm_num) (fun _ => le_refl 0) rfl
     (by norm_num)⟩

/-- C7: for every decoration-eligible tile (`elevation ≥ 0.15`) and every
stream of `Math.random()` draws in `[0,1)`: a forest tile emits between 1 and
2 tree instances inclusive (count `= 1 + floor(random()*2)`); a mountain tile
emits exactly 1 peak instance at the tile center; a grassland tile emits 1
rock instance exactly when the draw exceeds `0.7` (an event of probability
`0.3` for a uniform draw, the trigger set being the length-`0.3` interval
`(0.7, 1)`) and otherwise 0; tiles of every other biome emit 0 decorations. -/
theorem C7_decoration_counts :
    ∀ (tile : Tile) (elevation offset : ℚ) (rnd : ℕ → ℚ),
      (∀ i, 0 ≤ rnd i ∧ rnd i < 1) → 0.15 ≤ elevation →
      (tile.biome = "forest" →
        (decorateTile tile elevation offset rnd).length =
          1 + (Int.floor (rnd 0 * 2)).toNat ∧
        1 ≤ (decorateTile tile elevation offset rnd).length ∧
        (decorateTile tile elevation offset rnd).length ≤ 2 ∧
        ∀ p ∈ decorateTile tile elevation offset rnd, p.kind = PropKind.tree) ∧
      (tile.biome = "mountain" →
        decorateTile tile elevation offset rnd =
          [{ kind := PropKind.mountain, px := (tile.x : ℚ) - offset,
             py := 0.1 + elevation * 1.5, pz := (tile.y : ℚ) - offset,
             scale := 0.8 + rnd 0 * 0.4 }]) ∧
      (tile.biome = "grassland" →
        ((decorateTile tile elevation offset rnd).length =
          if 0.7 < rnd 0 then 1 else 0) ∧
        ∀ p ∈ decorateTile tile elevation offset rnd, p.kind = PropKind.rock) ∧
      (tile.biome ≠ "forest" → tile.biome ≠ "mountain" → tile.biome ≠ "grassland" →
        decorateTile tile elevation offset rnd = []) := by
  intro tile elevation offset rnd hrnd he
  have hnotlt : ¬ elevation < 0.15 := not_lt.mpr he
  refine ⟨?_, ?_, ?_, ?_⟩
  · intro hb
    have hfloor0 : 0 ≤ Int.floor (rnd 0 * 2) := by
      rw [Int.le_floor]
      push_cast
      nlinarith [(hrnd 0).1]
    have hfloor1 : Int.floor (rnd 0 * 2) ≤ 1 := by
      have : Int.floor (rnd 0 * 2) < 2 := by
        rw [Int.floor_lt]
        push_cast
        nlinarith [(hrnd 0).2]
      omega
    have htoNat : (Int.floor (rnd 0 * 2)).toNat ≤ 1 := by omega
    have hlist : decorateTile tile elevation offset rnd =
        (List.range (1 + (Int.floor (rnd 0 * 2)).toNat)).map (fun i =>
          ({ kind := PropKind.tree,
             px := (tile.x : ℚ) - offset + (rnd (1 + 3 * i) - 0.5) * 0.4,
             py := 0.1 + elevation * 1.5,
             pz := (tile.y : ℚ) - offset + (rnd (2 + 3 * i) - 0.5) * 0.4,
             scale := 0.7 + rnd (3 + 3 * i) * 0.4 } : PropItem)) := by
      simp [decorateTile, hnotlt, hb]
    have hlen : (decorateTile tile elevation offset rnd).length =
        1 + (Int.floor (rnd 0 * 2)).toNat := by
      rw [hlist, List.length_map, List.length_range]
    refine ⟨hlen, ?_, ?_, ?_⟩
    · rw [hlen]
      omega
    · rw [hlen]
      omega
    · intro p hp
      rw [hlist, List.mem_map] at hp
      obtain ⟨i, _, rfl⟩ := hp
      rfl
  · intro hb
    simp [decorateTile, hnotlt, hb]
  · intro hb
    by_cases hcoin : 0.7 < rnd 0
    · constructor
      · simp [decorateTile, hnotlt, hb, hcoin]
      · intro p hp
        simp only [decorateTile, if_neg hnotlt, hb] at hp
        simp only [if_pos hcoin] at hp
        simp at hp
        rw [hp]
    · constructor
      · simp [decorateTile, hnotlt, hb, hcoin]
      · intro p hp
        simp [decorateTile, hnotlt, hb, hcoin] at hp
  · intro hf hm hg
    simp [decorateTile, hnotlt, hf, hm, hg]

/-- C7 witness: a concrete eligible mountain tile with the constant-`1/2`
draw stream emits exactly its one centered peak. -/
theorem C7_witness :
    decorateTile ⟨0, 0, "mountain"⟩ (2/10) 0 (fun _ => 1/2) =
      [{ kind := PropKind.mountain, px := ((0 : ℤ) : ℚ) - 0,
         py := 0.1 + (2/10) * 1.5, pz := ((0 : ℤ) : ℚ) - 0,
         scale := 0.8 + (1/2) * 0.4 }] :=
  (C7_decoration_counts ⟨0, 0, "mountain"⟩ (2/10) 0 (fun _ => 1/2)
    (fun _ => ⟨by norm_num, by norm_num⟩) (by norm_num)).2.1 rfl

/-- C8: every emitted decoration instance sits at y-coordinate
`0.1 + elevation*1.5`, the emitting tile's render height; the tile's
hexagonal prism is centered at `height/2` with vertical extent `height`, so
the decoration's y-coordinate is exactly the prism's top face
(`center + height/2`) — on top of the terrain, not embedded. -/
theorem C8_decorations_on_top :
    ∀ (tile : Tile) (elevation gridSize : ℚ) (rnd : ℕ → ℚ) (p : PropItem),
      p ∈ decorateTile tile elevation (gridSize / 2 - 0.5) rnd →
      p.py = 0.1 + elevation * 1.5 ∧
      ∃ m, tileHexMesh tile elevation gridSize = some m ∧
        m.py = m.height / 2 ∧ p.py = m.py + m.height / 2 ∧
        m.height = 0.1 + elevation * 1.5 := by
  intro tile elevation gridSize rnd p hp
  by_cases hlt : elevation < 0.15
  · simp only [decorateTile, if_pos hlt] at hp
    exact absurd hp (List.not_mem_nil p)
  have hpy : p.py = 0.1 + elevation * 1.5 := by
    simp only [decorateTile, if_neg hlt] at hp
    split at hp
    · rw [List.mem_map] at hp
      obtain ⟨i, _, rfl⟩ := hp
      rfl
    · split at hp
      · simp at hp
        subst hp
        rfl
      · split at hp
        · split at hp
          · simp at hp
            subst hp
            rfl
          · exact absurd hp (List.not_mem_nil p)
        · exact absurd hp (List.not_mem_nil p)
  have hvis : ¬ elevation < 0.08 := by
    push_neg at hlt ⊢
    linarith
  have hmesh : tileHexMesh tile elevation gridSize =
      some { px := (tile.x : ℚ) - (gridSize / 2 - 0.5),
             py := (0.1 + elevation * 1.5) / 2,
             pz := (tile.y : ℚ) - (gridSize / 2 - 0.5),
             height := 0.1 + elevation * 1.5,
             color := biomeColor tile.biome } := by
    simp [tileHexMesh, hvis]
  refine ⟨hpy, _, hmesh, rfl, ?_, rfl⟩
  rw [hpy]
  show 0.1 + elevation * 1.5 =
    (0.1 + elevation * 1.5) / 2 + (0.1 + elevation * 1.5) / 2
  ring

/-- C8 witness: the mountain peak of an eligible tile at elevation `1/2`
in an 8-wide grid sits at `0.85`, the top face of its prism. -/
theorem C8_witness :
    (⟨PropKind.mountain, 1/2, 17/20, 1/2, 4/5⟩ : PropItem).py =
      0.1 + (1/2) * 1.5 ∧
    ∃ m, tileHexMesh ⟨4, 4, "mountain"⟩ (1/2) 8 = some m ∧
      m.py = m.height / 2 ∧
      (⟨PropKind.mountain, 1/2, 17/20, 1/2, 4/5⟩ : PropItem).py =
        m.py + m.height / 2 ∧
      m.height = 0.1 + (1/2) * 1.5 :=
  C8_decorations_on_top ⟨4, 4, "mountain"⟩ (1/2) 8 (fun _ => 0)
    ⟨PropKind.mountain, 1/2, 17/20, 1/2, 4/5⟩
    (by norm_num [decorateTile]; simp)

/-- C9: grid size 8, a single tile at `(4,4)` with biome `mountain` and
elevation forced to `0.5` — the renderer emits exactly one mesh instance at
`(0.5, 0.425, 0.5)` with extruded height `0.85`, and the decoration placer
emits exactly one peak at height `0.85`, whatever the random draws. -/
theorem C9_end_to_end_mountain :
    ∀ rndFam : ℤ → ℤ → ℕ → ℚ,
      islandMeshes [⟨4, 4, "mountain"⟩] 8
          (fun x y => if x = 4 ∧ y = 4 then some (1/2) else none) =
        [{ px := 1/2, py := 17/40, pz := 1/2, height := 17/20,
           color := biomeColor "mountain" }] ∧
      ∃ s, islandProps [⟨4, 4, "mountain"⟩] 8
          (fun x y => if x = 4 ∧ y = 4 then some (1/2) else none) rndFam =
        [{ kind := PropKind.mountain, px := 1/2, py := 17/20, pz := 1/2,
           scale := s }] := by
  intro rndFam
  constructor
  · norm_num [islandMeshes, tileHexMesh, List.filterMap_cons, List.filterMap_nil,
      MeshInstance.mk.injEq]
  · refine ⟨0.8 + rndFam 4 4 0 * 0.4, ?_⟩
    norm_num [islandProps, decorateTile, PropItem.mk.injEq]
    intro h
    exact absurd h (by decide)

/-- C10: in both water shader variants the summed vertex displacement lies in
`[-0.12, 0.12]` for every vertex position and time (the two variants' GLSL is
identical); the upper edge `0.12` — the top of the fragment stage's foam
band `smoothstep(0.08, 0.12, ...)` — is attained only when all three sine
terms are simultaneously at their maxima; and the displacement at
`x = y = 0, t = 0` is exactly `0`. -/
theorem C10_water_displacement_bounds :
    ∀ x y uTime : ℝ,
      (-0.12 ≤ healthWaterDisplacement x y uTime ∧
        healthWaterDisplacement x y uTime ≤ 0.12) ∧
      darkWaterDisplacement x y uTime = healthWaterDisplacement x y uTime ∧
      (healthWaterDisplacement x y uTime = 0.12 →
        Real.sin (x * 2.0 + uTime * 0.5) = 1 ∧
        Real.sin (y * 3.0 + uTime * 0.7) = 1 ∧
        Real.sin ((x + y) * 1.5 + uTime * 0.3) = 1) ∧
      healthWaterDisplacement 0 0 0 = 0 ∧ darkWaterDisplacement 0 0 0 = 0 := by
  intro x y uTime
  have hs1l := Real.neg_one_le_sin (x * 2.0 + uTime * 0.5)
  have hs1u := Real.sin_le_one (x * 2.0 + uTime * 0.5)
  have hs2l := Real.neg_one_le_sin (y * 3.0 + uTime * 0.7)
  have hs2u := Real.sin_le_one (y * 3.0 + uTime * 0.7)
  have hs3l := Real.neg_one_le_sin ((x + y) * 1.5 + uTime * 0.3)
  have hs3u := Real.sin_le_one ((x + y) * 1.5 + uTime * 0.3)
  refine ⟨⟨?_, ?_⟩, rfl, ?_, ?_, ?_⟩
  · simp only [healthWaterDisplacement]
    linarith
  · simp only [healthWaterDisplacement]
    linarith
  · intro hmax
    simp only [healthWaterDisplacement] at hmax
    refine ⟨?_, ?_, ?_⟩ <;> linarith
  · norm_num [healthWaterDisplacement]
  · norm_num [darkWaterDisplacement]

/-- C10 witness: at `x = 3π/17`, `y = 5π/51`, `t = 5π/17` all three sine
arguments are `π/2`, the displacement attains `0.12`, and the theorem yields
that every sine term is at its maximum there. -/
theorem C10_witness :
    healthWaterDisplacement (3 * Real.pi / 17) (5 * Real.pi / 51)
        (5 * Real.pi / 17) = 0.12 ∧
    Real.sin ((3 * Real.pi / 17) * 2.0 + (5 * Real.pi / 17) * 0.5) = 1 ∧
    Real.sin ((5 * Real.pi / 51) * 3.0 + (5 * Real.pi / 17) * 0.7) = 1 ∧
    Real.sin ((3 * Real.pi / 17 + 5 * Real.pi / 51) * 1.5 +
      (5 * Real.pi / 17) * 0.3) = 1 := by
  have h1 : (3 * Real.pi / 17) * 2.0 + (5 * Real.pi / 17) * 0.5 = Real.pi / 2 := by
    ring
  have h2 : (5 * Real.pi / 51) * 3.0 + (5 * Real.pi / 17) * 0.7 = Real.pi / 2 := by
    ring
  have h3 : (3 * Real.pi / 17 + 5 * Real.pi / 51) * 1.5 +
      (5 * Real.pi / 17) * 0.3 = Real.pi / 2 := by
    ring
  have hd : healthWaterDisplacement (3 * Real.pi / 17) (5 * Real.pi / 51)
      (5 * Real.pi / 17) = 0.12 := by
    simp only [healthWaterDisplacement]
    rw [h1, h2, h3, Real.sin_pi_div_two]
    norm_num
  exact ⟨hd, (C10_water_displacement_bounds _ _ _).2.2.1 hd⟩
